import Mathlib

/-!
Verification development for the screen_sentry capture-detect-track-redact
pipeline (src/screen_sentry.py, class ScreenSentry).

Modelling conventions:
* boxes are the 4-tuples (x, y, w, h) of Python, embedded as a structure
  with integer fields (pytesseract returns integer pixel coordinates);
* a frame is a total map from integer pixel coordinates to a colour, the
  colour being the BGR triple passed to cv2 calls; clipping to the image
  bounds is not modelled;
* the OCR collaborator (pytesseract.image_to_data, together with the OTSU
  thresholding feeding it) is external per the spec, so functions that take
  an image in the source take the OCR token list here;
* Python re patterns are embedded as an explicit regular-expression AST
  with a fuel-bounded backtracking matcher; re.match anchors at the first
  character of the string, which reMatch mirrors;
* string case mapping (lower/upper/capitalize) is the ASCII mapping.
-/

namespace ScreenSentry

/-- DetectionBox of the spec: the (x, y, w, h) tuples the source passes
around, from pytesseract output fields left/top/width/height. -/
structure Box where
  x : Int
  y : Int
  w : Int
  h : Int
deriving DecidableEq, Repr

/-- Colour triple as passed to cv2.rectangle, BGR order. -/
abbrev Color := Int × Int × Int

/-- A frame is modelled as a total pixel map on the integer grid. -/
abbrev Frame := Int × Int → Color

/-- OcrToken of the spec: one row of the pytesseract image_to_data
dictionary: text, integer confidence and the bounding-box fields. -/
structure OcrToken where
  text : String
  conf : Int
  left : Int
  top : Int
  width : Int
  height : Int
deriving DecidableEq, Repr

/-! Regular-expression AST covering the constructs used by the patterns of
generate_patterns and by re.compile applied to the generated word
variations: character classes, sequencing, alternation, Kleene star, the
word boundary assertion and negative lookahead. -/

inductive Regex where
  | eps : Regex
  | cls : (Char → Bool) → Regex
  | seq : Regex → Regex → Regex
  | alt : Regex → Regex → Regex
  | star : Regex → Regex
  | wordB : Regex
  | negLook : Regex → Regex

/-- Python re word character for the word-boundary assertion: [a-zA-Z0-9_]
(ASCII). -/
def isWordChar (c : Char) : Bool := c.isAlphanum || c == '_'

/-- Python \s on ASCII input: space, tab, newline, carriage return,
vertical tab, form feed. -/
def isPySpace (c : Char) : Bool :=
  c == ' ' || c == '\t' || c == '\n' || c == '\r' || c == '\x0b' || c == '\x0c'

/-- Word boundary test between the previously consumed character (none at
the start of the string) and the next character (none at the end). -/
def wordBoundaryAt (prev : Option Char) (s : List Char) : Bool :=
  (match prev with | none => false | some c => isWordChar c) !=
  (match s with | [] => false | c :: _ => isWordChar c)

/-- Backtracking matcher. reStates fuel r prev s returns every state
(last consumed character, remaining input) reachable by matching r at the
current position; fuel bounds the recursion depth. A star iteration must
consume input, which is exact for the patterns in this file (the only
starred subexpression is a character class). -/
def reStates : Nat → Regex → Option Char → List Char → List (Option Char × List Char)
  | 0, _, _, _ => []
  | Nat.succ _, Regex.eps, prev, s => [(prev, s)]
  | Nat.succ _, Regex.cls p, _, s =>
      match s with
      | [] => []
      | c :: rest => if p c then [(some c, rest)] else []
  | Nat.succ fuel, Regex.seq r1 r2, prev, s =>
      (reStates fuel r1 prev s).flatMap (fun st => reStates fuel r2 st.1 st.2)
  | Nat.succ fuel, Regex.alt r1 r2, prev, s =>
      reStates fuel r1 prev s ++ reStates fuel r2 prev s
  | Nat.succ fuel, Regex.star r1, prev, s =>
      (prev, s) ::
        (reStates fuel r1 prev s).flatMap
          (fun st =>
            if st.2.length < s.length then reStates fuel (Regex.star r1) st.1 st.2 else [])
  | Nat.succ _, Regex.wordB, prev, s =>
      if wordBoundaryAt prev s then [(prev, s)] else []
  | Nat.succ fuel, Regex.negLook r1, prev, s =>
      if (reStates fuel r1 prev s).isEmpty then [(prev, s)] else []

/-- Fuel bound, generous for the pattern sizes and strings involved. -/
def reFuel (s : List Char) : Nat := 5000 + 200 * s.length

/-- Anchored match as performed by pattern.match(text) in Python: the
pattern must match some prefix starting at the first character. -/
def reMatch (r : Regex) (s : String) : Bool :=
  ! (reStates (reFuel s.data) r none s.data).isEmpty

/-- Literal single character. -/
def rchar (c : Char) : Regex := Regex.cls (fun x => x == c)

/-- Digit class \d. -/
def rdigit : Regex := Regex.cls Char.isDigit

/-- Separator class [-.\s] used by the phone and SSN patterns. -/
def rsep : Regex := Regex.cls (fun c => c == '-' || c == '.' || isPySpace c)

/-- Hexadecimal-digit class [0-9a-fA-F] of the IPv6 pattern. -/
def rhex : Regex :=
  Regex.cls (fun c => c.isDigit || decide ('a' ≤ c ∧ c ≤ 'f') || decide ('A' ≤ c ∧ c ≤ 'F'))

/-- Sequence of a list of regexes. -/
def rcat (rs : List Regex) : Regex := rs.foldr Regex.seq Regex.eps

/-- Counted repetition r{n}. -/
def rrep (r : Regex) (n : Nat) : Regex := rcat (List.replicate n r)

/-- Optional r?. -/
def ropt (r : Regex) : Regex := Regex.alt r Regex.eps

/-- Bounded repetition r{lo,hi}. -/
def rbetween (r : Regex) (lo hi : Nat) : Regex :=
  Regex.seq (rrep r lo) (rcat (List.replicate (hi - lo) (ropt r)))

/-- Phone pattern 1 of generate_patterns (src line 261). -/
def phone_pattern_1 : Regex :=
  rcat [Regex.wordB, rrep rdigit 3, ropt rsep, rrep rdigit 3, ropt rsep,
        rrep rdigit 4, Regex.wordB]

/-- Phone pattern 2 of generate_patterns (src line 262). -/
def phone_pattern_2 : Regex :=
  rcat [rchar '(', rrep rdigit 3, rchar ')', Regex.star (Regex.cls isPySpace),
        rrep rdigit 3, ropt rsep, rrep rdigit 4, Regex.wordB]

/-- SSN pattern of generate_patterns (src line 267). -/
def ssn_pattern_1 : Regex :=
  rcat [Regex.wordB, rrep rdigit 3, ropt rsep, rrep rdigit 2, ropt rsep,
        rrep rdigit 4, Regex.wordB]

/-- First IPv4 pattern of generate_patterns (src line 272). -/
def ip_pattern_1 : Regex :=
  rcat [Regex.wordB, rrep (rcat [rbetween rdigit 1 3, rchar '.']) 3,
        rbetween rdigit 1 3, Regex.wordB]

/-- Second IPv4 pattern of generate_patterns (src line 273). -/
def ip_pattern_2 : Regex :=
  rcat [Regex.wordB, rrep (rcat [rbetween rdigit 1 3, rchar '.']) 3,
        rbetween rdigit 1 3, Regex.negLook (Regex.cls (fun c => c.isDigit || c == '.')),
        Regex.wordB]

/-- IPv6 pattern of generate_patterns (src line 274). -/
def ip_pattern_3 : Regex :=
  rcat [Regex.wordB, rrep (rcat [rbetween rhex 1 4, rchar ':']) 7,
        rbetween rhex 1 4, Regex.wordB]

/-- phone_number_patterns returned by generate_patterns. -/
def phone_number_patterns : List Regex := [phone_pattern_1, phone_pattern_2]

/-- ssn_patterns returned by generate_patterns. -/
def ssn_patterns : List Regex := [ssn_pattern_1]

/-- ip_address_patterns returned by generate_patterns. -/
def ip_address_patterns : List Regex := [ip_pattern_1, ip_pattern_2, ip_pattern_3]

/-- All six sensitive-data patterns, in the order they are appended to
words_to_detect in the main block (src lines 339-342). -/
def sensitive_patterns : List Regex :=
  phone_number_patterns ++ ssn_patterns ++ ip_address_patterns

/-- Compilation of any(pattern.match(text) for pattern in patterns), the
matching test of perform_ocr_privacy_mode (src line 168). -/
def matches_any (patterns : List Regex) (s : String) : Bool :=
  patterns.any (fun p => reMatch p s)

/-! Pattern Compiler: word variations (generate_word_variations, src lines
201-248). -/

/-- Python str.lower on ASCII input: every character lowercased. -/
def pyLower (s : String) : String := String.mk (s.data.map Char.toLower)

/-- Python str.upper on ASCII input: every character uppercased. -/
def pyUpper (s : String) : String := String.mk (s.data.map Char.toUpper)

/-- Python str.capitalize on ASCII input: first character uppercased, the
rest lowercased. -/
def pyCapitalize (s : String) : String :=
  match s.data with
  | [] => String.mk []
  | c :: rest => String.mk (Char.toUpper c :: rest.map Char.toLower)

/-- punctuation_marks of generate_word_variations (src line 227); the
apostrophe is written with its hexadecimal escape. -/
def punctuation_marks : List String := [".", ",", "!", "?", "--", "-", "\x27"]

/-- Variations appended for one word by the loop body of
generate_word_variations (src lines 220-242), in source order: the three
case forms, each case form with each punctuation mark, the three plural
forms, and each plural form with each punctuation mark. -/
def variationsOf (word : String) : List String :=
  [pyLower word, pyUpper word, pyCapitalize word]
  ++ punctuation_marks.flatMap
      (fun mark => [pyLower word ++ mark, pyUpper word ++ mark, pyCapitalize word ++ mark])
  ++ [pyLower word ++ "s", pyUpper word ++ "S", pyCapitalize word ++ "s"]
  ++ punctuation_marks.flatMap
      (fun mark =>
        [pyLower word ++ "s" ++ mark, pyUpper word ++ "S" ++ mark,
         pyCapitalize word ++ "s" ++ mark])

/-- Default word list of the main block (src line 329), also the list
extended into the caller-supplied words (src line 216). -/
def default_redacted_words : List String := ["apple", "banana", "password"]

/-- generate_word_variations (src lines 201-248): the source first extends
the caller's list with the three defaults, then appends all variations of
every word in order; the in-place list mutation is embedded as appending
the defaults. -/
def generate_word_variations (words_to_redact : List String) : List String :=
  (words_to_redact ++ default_redacted_words).flatMap variationsOf

/-! Token Matcher: perform_ocr (src lines 110-140) and
perform_ocr_privacy_mode (src lines 142-175). Both receive the OCR
collaborator output as the token list; the image thresholding and the
pytesseract call are the external OCR adapter. -/

/-- Box built from one pytesseract row (src lines 134, 169). -/
def boxOfToken (t : OcrToken) : Box := Box.mk t.left t.top t.width t.height

/-- perform_ocr (src lines 110-140), exact mode: one box per token whose
lowercased text is in words_to_detect and whose confidence is strictly
positive (src line 133). -/
def perform_ocr (ocr_data : List OcrToken) (words_to_detect : List String) : List Box :=
  ocr_data.foldl
    (fun word_boxes t =>
      if words_to_detect.contains (pyLower t.text) && decide (0 < t.conf)
      then word_boxes ++ [boxOfToken t]
      else word_boxes)
    []

/-- perform_ocr_privacy_mode (src lines 142-175): one box per token whose
text has an anchored match against some pattern of the list and whose
confidence is strictly positive (src line 168). The patterns argument is
the already compiled pattern list (src line 162 compiles strings and
passes compiled patterns through). -/
def perform_ocr_privacy_mode (ocr_data : List OcrToken) (patterns : List Regex) : List Box :=
  ocr_data.foldl
    (fun word_boxes t =>
      if matches_any patterns t.text && decide (0 < t.conf)
      then word_boxes ++ [boxOfToken t]
      else word_boxes)
    []

/-- Modelling of re.compile applied to one generated word variation: the
variations of ASCII words consist of letters, digits and the punctuation
marks, in which the dot is the any-character-but-newline metacharacter and
the question mark makes the preceding atom optional; every other
character is a literal. -/
def compileAtom (c : Char) : Regex :=
  if c == '.' then Regex.cls (fun x => x != '\n') else Regex.cls (fun x => x == c)

/-- Recursive compilation over the character list, consuming a trailing
question mark together with the atom it modifies. -/
def compileChars : List Char → Regex
  | [] => Regex.eps
  | [c] => Regex.seq (compileAtom c) Regex.eps
  | c :: '?' :: rest => Regex.seq (Regex.alt (compileAtom c) Regex.eps) (compileChars rest)
  | c :: c2 :: rest => Regex.seq (compileAtom c) (compileChars (c2 :: rest))

/-- The words_to_detect list the main block passes to capture_screen when
privacy mode is enabled (src lines 334-342): all generated word
variations followed by the six sensitive patterns, each compiled as in
perform_ocr_privacy_mode (src line 162). -/
def compiled_words_to_detect (words_to_redact : List String) : List Regex :=
  (generate_word_variations words_to_redact).map (fun s => compileChars s.data)
  ++ sensitive_patterns

/-! Box Tracker: is_matching_box (src lines 304-325) and update_word_boxes
(src lines 282-302). -/

/-- is_matching_box (src lines 304-325): centers at (x + w/2, y + h/2),
match iff the Euclidean distance of the centers is strictly below the
threshold. The source compares np.sqrt of the squared distance with the
threshold; since the square root is nonnegative and strictly monotone,
that comparison is equivalent to the executable squared form used here
(the equivalence is proved below as is_matching_box_iff_sqrt). -/
def is_matching_box (box1 box2 : Box) (threshold : ℚ := 10) : Bool :=
  decide (0 < threshold ∧
    (((box1.x : ℚ) + (box1.w : ℚ) / 2) - ((box2.x : ℚ) + (box2.w : ℚ) / 2)) ^ 2 +
    (((box1.y : ℚ) + (box1.h : ℚ) / 2) - ((box2.y : ℚ) + (box2.h : ℚ) / 2)) ^ 2
      < threshold ^ 2)

/-- update_word_boxes (src lines 282-302): append every current box that
matches no previous box, then extend with the entire previous list. -/
def update_word_boxes (last_word_boxes current_word_boxes : List Box) : List Box :=
  (current_word_boxes.foldl
    (fun updated_word_boxes box =>
      if ! last_word_boxes.any (fun prev_box => is_matching_box box prev_box)
      then updated_word_boxes ++ [box]
      else updated_word_boxes)
    [])
  ++ last_word_boxes

/-! Redaction Renderer: redact_words (src lines 177-199). -/

/-- Fill colour (255, 255, 255) passed to cv2.rectangle (src line 196). -/
def white : Color := (255, 255, 255)

/-- Pixel membership in the filled rectangle cv2.rectangle paints between
two corner points, both corners inclusive, corners normalised. -/
abbrev in_rect (x1 y1 x2 y2 : Int) (p : Int × Int) : Prop :=
  min x1 x2 ≤ p.1 ∧ p.1 ≤ max x1 x2 ∧ min y1 y2 ≤ p.2 ∧ p.2 ≤ max y1 y2

/-- cv2.rectangle with thickness -1: paint every pixel between the two
corners (inclusive) with the colour, leave the rest of the frame as is. -/
def cv2_rectangle_filled (img : Frame) (x1 y1 x2 y2 : Int) (color : Color) : Frame :=
  fun p => if in_rect x1 y1 x2 y2 p then color else img p

/-- Pixel membership in the padding-expanded rectangle of one box, exactly
the region painted for that box by redact_words. -/
abbrev in_padded_box (padding : Int) (b : Box) (p : Int × Int) : Prop :=
  in_rect (b.x - padding) (b.y - padding)
    (b.x - padding + (b.w + 2 * padding)) (b.y - padding + (b.h + 2 * padding)) p

/-- redact_words (src lines 177-199): for each box expand by the padding
on all sides and paint a filled white rectangle over the expanded region;
the frame is mutated in place in the source and returned here. The
per-rectangle time.sleep pacing has no effect on pixels and is not
modelled. -/
def redact_words (image : Frame) (word_boxes : List Box) (padding : Int := 1) : Frame :=
  word_boxes.foldl
    (fun img b =>
      cv2_rectangle_filled img (b.x - padding) (b.y - padding)
        (b.x - padding + (b.w + 2 * padding)) (b.y - padding + (b.h + 2 * padding))
        white)
    image

/-! Capture Loop Controller: the while-loop body of capture_screen
(src lines 88-104). -/

/-- State carried across loop iterations. The source carries only
last_ocr_time across iterations: the word_boxes variable is local to the
OCR branch and no box list survives an iteration. -/
structure LoopState where
  lastOcrTime : ℚ
deriving DecidableEq, Repr

/-- ocr_interval = 0.05 seconds (src line 86). -/
def ocr_interval : ℚ := 1 / 20

/-- One iteration of the while-loop body of capture_screen (src lines
88-104). The single Python argument words_to_detect holds plain words in
exact mode and the compiled pattern list in privacy mode; it is
represented by the two typed parameters of which the branch selected by
privacy_mode uses one. The OCR collaborator output for the current frame
is supplied as ocr_data, and now is the time.time() value of this
iteration. The returned frame is the one passed to cv2.imshow. -/
def capture_iteration (privacy_mode : Bool) (words_to_detect : List String)
    (patterns_to_detect : List Regex) (st : LoopState) (now : ℚ)
    (frame : Frame) (ocr_data : List OcrToken) : Frame × LoopState :=
  if now - st.lastOcrTime > ocr_interval then
    let word_boxes :=
      if privacy_mode then perform_ocr_privacy_mode ocr_data patterns_to_detect
      else perform_ocr ocr_data words_to_detect
    (redact_words frame word_boxes 1, LoopState.mk now)
  else
    (frame, st)

/-- All-black frame used as a concrete input in witnesses. -/
def black_frame : Frame := fun _ => (0, 0, 0)

/-- Concrete OCR token used in counterexamples: the word apple read with
confidence 50 in the box (5, 5, 10, 10). -/
def apple_token : OcrToken := OcrToken.mk "apple" 50 5 5 10 10

/-- All variants one word contributes, as a predicate on the result list:
the three case forms, each with every punctuation mark, the three plural
forms, and each plural form with every punctuation mark. -/
def containsAllVariants (res : List String) (w : String) : Prop :=
  pyLower w ∈ res ∧ pyUpper w ∈ res ∧ pyCapitalize w ∈ res ∧
  (∀ mark ∈ punctuation_marks,
    pyLower w ++ mark ∈ res ∧ pyUpper w ++ mark ∈ res ∧ pyCapitalize w ++ mark ∈ res) ∧
  (pyLower w ++ "s" ∈ res ∧ pyUpper w ++ "S" ∈ res ∧ pyCapitalize w ++ "s" ∈ res) ∧
  (∀ mark ∈ punctuation_marks,
    pyLower w ++ "s" ++ mark ∈ res ∧ pyUpper w ++ "S" ++ mark ∈ res ∧
    pyCapitalize w ++ "s" ++ mark ∈ res)

/-! Shared helper lemmas. -/

/-- The accumulate-if loop pattern of perform_ocr, perform_ocr_privacy_mode
and update_word_boxes collects exactly the filtered, mapped elements. -/
theorem foldl_if_append {α β : Type} (p : α → Bool) (f : α → β) :
    ∀ (l : List α) (acc : List β),
      List.foldl (fun a x => if p x then a ++ [f x] else a) acc l
        = acc ++ (l.filter p).map f := by
  intro l
  induction l with
  | nil => intro acc; simp
  | cons x xs ih =>
      intro acc
      cases hx : p x <;> simp [hx, ih]

/-- containsAllVariants holds of the variation list of the word itself. -/
theorem containsAllVariants_variationsOf (w : String) :
    containsAllVariants (variationsOf w) w := by
  unfold containsAllVariants variationsOf
  refine ⟨?_, ?_, ?_, ?_, ⟨?_, ?_, ?_⟩, ?_⟩
  · exact List.mem_append_left _ (List.mem_append_left _ (List.mem_append_left _ (by simp)))
  · exact List.mem_append_left _ (List.mem_append_left _ (List.mem_append_left _ (by simp)))
  · exact List.mem_append_left _ (List.mem_append_left _ (List.mem_append_left _ (by simp)))
  · intro mark hm
    refine ⟨?_, ?_, ?_⟩ <;>
      exact List.mem_append_left _ (List.mem_append_left _
        (List.mem_append_right _ (List.mem_flatMap.mpr ⟨mark, hm, by simp⟩)))
  · exact List.mem_append_left _ (List.mem_append_right _ (by simp))
  · exact List.mem_append_left _ (List.mem_append_right _ (by simp))
  · exact List.mem_append_left _ (List.mem_append_right _ (by simp))
  · intro mark hm
    refine ⟨?_, ?_, ?_⟩ <;>
      exact List.mem_append_right _ (List.mem_flatMap.mpr ⟨mark, hm, by simp⟩)

/-- Every variation of a listed word is in the generated list. -/
theorem mem_generate_of_mem_variations {ws : List String} {w v : String}
    (hw : w ∈ ws ++ default_redacted_words) (hv : v ∈ variationsOf w) :
    v ∈ generate_word_variations ws :=
  List.mem_flatMap.mpr ⟨w, hw, hv⟩

/-- The executable squared comparison of is_matching_box agrees with the
source's comparison of the square-rooted distance against the
threshold. -/
theorem is_matching_box_iff_sqrt (box1 box2 : Box) (t : ℚ) :
    is_matching_box box1 box2 t = true ↔
      Real.sqrt
        (((((box1.x : ℚ) + (box1.w : ℚ) / 2) - ((box2.x : ℚ) + (box2.w : ℚ) / 2)) ^ 2 +
          ((((box1.y : ℚ) + (box1.h : ℚ) / 2) - ((box2.y : ℚ) + (box2.h : ℚ) / 2))) ^ 2 : ℚ))
        < (t : ℝ) := by
  unfold is_matching_box
  rw [decide_eq_true_eq]
  constructor
  · rintro ⟨ht, hd⟩
    have ht' : (0 : ℝ) < (t : ℝ) := by exact_mod_cast ht
    exact (Real.sqrt_lt' ht').mpr (by exact_mod_cast hd)
  · intro h
    have ht' : (0 : ℝ) < (t : ℝ) :=
      lt_of_le_of_lt (Real.sqrt_nonneg _) h
    have ht : 0 < t := by exact_mod_cast ht'
    refine ⟨ht, ?_⟩
    have hd' := (Real.sqrt_lt' ht').mp h
    exact_mod_cast hd'

/-! Claim theorems. -/

/-- C1, counterexample: the capture loop does not repaint tracked boxes on
every iteration. At time 1 (OCR interval elapsed) the loop detects the
word apple at box (5, 5, 10, 10) and outputs a frame painted white at
pixel (10, 10), carrying time 1 forward; at time 1.01 (interval not
elapsed) the same scene is output completely unredacted: pixel (10, 10)
of the displayed frame is black, so the box detected one cycle earlier is
not repainted. -/
theorem capture_loop_no_repaint_without_ocr_cx :
    (capture_iteration false ["apple"] [] (LoopState.mk 0) 1 black_frame
        [apple_token]).1 (10, 10) = white
    ∧ (capture_iteration false ["apple"] [] (LoopState.mk 0) 1 black_frame
        [apple_token]).2 = LoopState.mk 1
    ∧ (capture_iteration false ["apple"] [] (LoopState.mk 1) (101 / 100) black_frame
        [apple_token]).1 (10, 10) = (0, 0, 0) := by
  refine ⟨?_, ?_, ?_⟩
  · unfold capture_iteration
    rw [if_pos (by norm_num [ocr_interval])]
    decide
  · unfold capture_iteration
    rw [if_pos (by norm_num [ocr_interval])]
  · unfold capture_iteration
    rw [if_neg (by norm_num [ocr_interval])]
    rfl

/-- C1, amended: boxes are painted only in iterations in which the OCR
interval has elapsed; in an iteration in which OCR does not run, the
current frame is output unchanged and the state is carried over, so no
boxes at all are repainted in that iteration. -/
theorem capture_iteration_frame_unchanged_without_ocr :
    ∀ (privacy_mode : Bool) (words_to_detect : List String)
      (patterns_to_detect : List Regex) (st : LoopState) (now : ℚ)
      (frame : Frame) (ocr_data : List OcrToken),
      ¬ now - st.lastOcrTime > ocr_interval →
      capture_iteration privacy_mode words_to_detect patterns_to_detect st now frame ocr_data
        = (frame, st) := by
  intro pm words pats st now frame ocr_data h
  unfold capture_iteration
  rw [if_neg h]

/-- Witness for capture_iteration_frame_unchanged_without_ocr at a
concrete non-OCR iteration. -/
theorem capture_iteration_frame_unchanged_without_ocr_witness :
    capture_iteration false [] [] (LoopState.mk 1) (101 / 100) black_frame []
      = (black_frame, LoopState.mk 1) :=
  capture_iteration_frame_unchanged_without_ocr false [] [] (LoopState.mk 1) (101 / 100)
    black_frame [] (by norm_num [ocr_interval])

/-- C2, counterexample: detection cycles do not merge with the previous
box set. Cycle one (time 0 to 1) detects apple at (5, 5, 10, 10) and
paints it; cycle two (time 1 to 2) runs OCR with no detections and
outputs a completely unredacted frame, black at pixel (10, 10): the
redacted set shrank from one box to none. Had the loop invoked
update_word_boxes, the previous box would have been kept, as the third
conjunct shows. -/
theorem capture_loop_drops_previous_boxes_cx :
    (capture_iteration false ["apple"] [] (LoopState.mk 0) 1 black_frame
        [apple_token]).1 (10, 10) = white
    ∧ (capture_iteration false ["apple"] [] (LoopState.mk 1) 2 black_frame []).1 (10, 10)
        = (0, 0, 0)
    ∧ update_word_boxes [Box.mk 5 5 10 10] [] = [Box.mk 5 5 10 10] := by
  refine ⟨?_, ?_, by decide⟩
  · unfold capture_iteration
    rw [if_pos (by norm_num [ocr_interval])]
    decide
  · unfold capture_iteration
    rw [if_pos (by norm_num [ocr_interval])]
    decide

/-- C2, amended: on a detection cycle the loop redacts exactly the fresh
detections of that cycle; the previously tracked boxes are not merged in
(the loop never invokes update_word_boxes), so the redacted set can
shrink between cycles. -/
theorem capture_iteration_fresh_detections_only :
    ∀ (privacy_mode : Bool) (words_to_detect : List String)
      (patterns_to_detect : List Regex) (st : LoopState) (now : ℚ)
      (frame : Frame) (ocr_data : List OcrToken),
      now - st.lastOcrTime > ocr_interval →
      capture_iteration privacy_mode words_to_detect patterns_to_detect st now frame ocr_data
        = (redact_words frame
            (if privacy_mode then perform_ocr_privacy_mode ocr_data patterns_to_detect
             else perform_ocr ocr_data words_to_detect),
           LoopState.mk now) := by
  intro pm words pats st now frame ocr_data h
  unfold capture_iteration
  rw [if_pos h]

/-- Witness for capture_iteration_fresh_detections_only at a concrete
detection cycle. -/
theorem capture_iteration_fresh_detections_only_witness :
    capture_iteration false ["apple"] [] (LoopState.mk 0) 1 black_frame [apple_token]
      = (redact_words black_frame
          (if false then perform_ocr_privacy_mode [apple_token] []
           else perform_ocr [apple_token] ["apple"]),
         LoopState.mk 1) :=
  capture_iteration_fresh_detections_only false ["apple"] [] (LoopState.mk 0) 1 black_frame
    [apple_token] (by norm_num [ocr_interval])

/-- C3, counterexample: the word list does participate in privacy-mode
matching. With the pattern list the main block builds for the default
words (all word variations followed by the six sensitive patterns), the
token apple with confidence 50 produces a detection box, even though its
text matches none of the two phone, one SSN and three IP patterns and its
confidence is positive — so matching one of those six patterns is not
necessary for a box. -/
theorem privacy_mode_word_list_participates_cx :
    perform_ocr_privacy_mode [apple_token] (compiled_words_to_detect [])
      = [Box.mk 5 5 10 10]
    ∧ matches_any sensitive_patterns "apple" = false
    ∧ apple_token.text = "apple"
    ∧ (0 < apple_token.conf) := by
  refine ⟨by decide, by decide, by decide, by decide⟩

/-- C3, amended: in privacy mode a token produces a detection box if and
only if its text matches, anchored at the token's first character, at
least one pattern of the pattern list actually passed in — which in the
main block is the whole words_to_detect list: every generated word
variation followed by the two phone, one SSN and three IP patterns — and
its confidence is strictly greater than 0. The word list therefore does
participate in privacy-mode matching. -/
theorem perform_ocr_privacy_mode_spec :
    ∀ (ocr_data : List OcrToken) (patterns : List Regex),
      perform_ocr_privacy_mode ocr_data patterns
        = (ocr_data.filter
            (fun t => matches_any patterns t.text && decide (0 < t.conf))).map boxOfToken := by
  intro ocr_data patterns
  unfold perform_ocr_privacy_mode
  rw [foldl_if_append (fun t => matches_any patterns t.text && decide (0 < t.conf)) boxOfToken]
  simp

/-- C4: the box-tracker merge returns the current boxes that match no
previous box (in their original order) followed by the entire previous
list unchanged; hence the result is at least as long as the previous list
and merging with no current boxes returns the previous list. -/
theorem update_word_boxes_merge_spec :
    ∀ (prev cur : List Box),
      update_word_boxes prev cur
        = cur.filter (fun box => ! prev.any (fun prev_box => is_matching_box box prev_box))
            ++ prev
      ∧ prev.length ≤ (update_word_boxes prev cur).length
      ∧ update_word_boxes prev [] = prev := by
  intro prev cur
  have heq : ∀ cur2 : List Box,
      update_word_boxes prev cur2
        = cur2.filter (fun box => ! prev.any (fun prev_box => is_matching_box box prev_box))
            ++ prev := by
    intro cur2
    unfold update_word_boxes
    rw [foldl_if_append
      (fun box => ! prev.any (fun prev_box => is_matching_box box prev_box))
      (fun box => box)]
    simp
  refine ⟨heq cur, ?_, by simpa using heq []⟩
  rw [heq cur]
  simp

/-- C5: under the anchored matching of privacy mode, 555-123-4567 matches
a phone pattern and not the SSN pattern, and 123-45-6789 matches the SSN
pattern and no phone pattern. -/
theorem pattern_cross_matching_spec :
    matches_any phone_number_patterns "555-123-4567" = true
    ∧ matches_any ssn_patterns "555-123-4567" = false
    ∧ matches_any ssn_patterns "123-45-6789" = true
    ∧ matches_any phone_number_patterns "123-45-6789" = false := by
  refine ⟨by decide, by decide, by decide, by decide⟩

/-- C6: the generated variation list always contains the three defaults
apple, banana and password, and for every word of the extended list it
contains the lower, upper and capitalized forms, each with every one of
the seven punctuation marks, the three pluralized case forms, and every
pluralized form with every punctuation mark — 48 variants per word. -/
theorem generate_word_variations_complete :
    ∀ (ws : List String),
      "apple" ∈ generate_word_variations ws
      ∧ "banana" ∈ generate_word_variations ws
      ∧ "password" ∈ generate_word_variations ws
      ∧ ∀ w ∈ ws ++ default_redacted_words,
          (variationsOf w).length = 48
          ∧ containsAllVariants (generate_word_variations ws) w := by
  intro ws
  have hall : ∀ w ∈ ws ++ default_redacted_words,
      containsAllVariants (generate_word_variations ws) w := by
    intro w hw
    have hv := containsAllVariants_variationsOf w
    obtain ⟨h1, h2, h3, h4, ⟨h5, h6, h7⟩, h8⟩ := hv
    refine ⟨mem_generate_of_mem_variations hw h1,
            mem_generate_of_mem_variations hw h2,
            mem_generate_of_mem_variations hw h3, ?_,
            ⟨mem_generate_of_mem_variations hw h5,
             mem_generate_of_mem_variations hw h6,
             mem_generate_of_mem_variations hw h7⟩, ?_⟩
    · intro mark hm
      obtain ⟨g1, g2, g3⟩ := h4 mark hm
      exact ⟨mem_generate_of_mem_variations hw g1,
             mem_generate_of_mem_variations hw g2,
             mem_generate_of_mem_variations hw g3⟩
    · intro mark hm
      obtain ⟨g1, g2, g3⟩ := h8 mark hm
      exact ⟨mem_generate_of_mem_variations hw g1,
             mem_generate_of_mem_variations hw g2,
             mem_generate_of_mem_variations hw g3⟩
  have happle : "apple" ∈ ws ++ default_redacted_words := by
    simp [default_redacted_words]
  have hbanana : "banana" ∈ ws ++ default_redacted_words := by
    simp [default_redacted_words]
  have hpassword : "password" ∈ ws ++ default_redacted_words := by
    simp [default_redacted_words]
  refine ⟨?_, ?_, ?_, fun w hw => ⟨?_, hall w hw⟩⟩
  · exact (hall "apple" happle).1
  · exact (hall "banana" hbanana).1
  · exact (hall "password" hpassword).1
  · simp [variationsOf, punctuation_marks]

/-- Witness for generate_word_variations_complete at the word hello. -/
theorem generate_word_variations_complete_witness :
    (variationsOf "hello").length = 48
    ∧ containsAllVariants (generate_word_variations ["hello"]) "hello" :=
  (generate_word_variations_complete ["hello"]).2.2.2 "hello" (by decide)

/-- C7: in exact mode a token produces a detection box if and only if its
lowercased text is a member of the word list and its confidence is
strictly greater than 0; in particular when every token has confidence at
most 0 no box is produced, whatever the texts. -/
theorem perform_ocr_exact_mode_spec :
    ∀ (ocr_data : List OcrToken) (words_to_detect : List String),
      perform_ocr ocr_data words_to_detect
        = (ocr_data.filter
            (fun t => words_to_detect.contains (pyLower t.text)
                        && decide (0 < t.conf))).map boxOfToken
      ∧ ((∀ t ∈ ocr_data, t.conf ≤ 0) → perform_ocr ocr_data words_to_detect = []) := by
  intro ocr_data words
  have heq : perform_ocr ocr_data words
      = (ocr_data.filter
          (fun t => words.contains (pyLower t.text) && decide (0 < t.conf))).map boxOfToken := by
    unfold perform_ocr
    rw [foldl_if_append (fun t => words.contains (pyLower t.text) && decide (0 < t.conf))
      boxOfToken]
    simp
  refine ⟨heq, fun h => ?_⟩
  rw [heq]
  have : ocr_data.filter
      (fun t => words.contains (pyLower t.text) && decide (0 < t.conf)) = [] := by
    rw [List.filter_eq_nil_iff]
    intro t ht
    simp [not_lt.mpr (h t ht)]
  rw [this]
  rfl

/-- Witness for perform_ocr_exact_mode_spec: a confidence-0 token whose
text is in the word list still produces no box. -/
theorem perform_ocr_exact_mode_spec_witness :
    perform_ocr [OcrToken.mk "password" 0 1 2 3 4] ["password"] = [] :=
  (perform_ocr_exact_mode_spec [OcrToken.mk "password" 0 1 2 3 4] ["password"]).2 (by decide)

/-- C8: the center-distance box matching test is symmetric in its two box
arguments, for every threshold. -/
theorem is_matching_box_symm :
    ∀ (a b : Box) (t : ℚ), is_matching_box a b t = is_matching_box b a t := by
  intro a b t
  unfold is_matching_box
  have hd : (((a.x : ℚ) + (a.w : ℚ) / 2) - ((b.x : ℚ) + (b.w : ℚ) / 2)) ^ 2 +
      (((a.y : ℚ) + (a.h : ℚ) / 2) - ((b.y : ℚ) + (b.h : ℚ) / 2)) ^ 2
        = (((b.x : ℚ) + (b.w : ℚ) / 2) - ((a.x : ℚ) + (a.w : ℚ) / 2)) ^ 2 +
      (((b.y : ℚ) + (b.h : ℚ) / 2) - ((a.y : ℚ) + (a.h : ℚ) / 2)) ^ 2 := by
    ring
  rw [hd]

/-- C9: after redacting the box (5, 5, 10, 10) with padding 1, every pixel
of the rectangle with corners (4, 4) and (16, 16) holds the opaque white
fill colour: the box is expanded by the padding on all sides and painted
as a filled rectangle. -/
theorem redact_words_paints_padded_rect :
    ∀ (frame : Frame) (px py : Int),
      4 ≤ px → px ≤ 16 → 4 ≤ py → py ≤ 16 →
      redact_words frame [Box.mk 5 5 10 10] 1 (px, py) = white := by
  intro frame px py h1 h2 h3 h4
  show cv2_rectangle_filled frame (5 - 1) (5 - 1) (5 - 1 + (10 + 2 * 1)) (5 - 1 + (10 + 2 * 1))
      white (px, py) = white
  unfold cv2_rectangle_filled
  rw [if_pos]
  refine ⟨?_, ?_, ?_, ?_⟩ <;> simp <;> omega

/-- Witness for redact_words_paints_padded_rect at pixel (10, 10) of a
black frame. -/
theorem redact_words_paints_padded_rect_witness :
    redact_words black_frame [Box.mk 5 5 10 10] 1 (10, 10) = white :=
  redact_words_paints_padded_rect black_frame 10 10 (by decide) (by decide) (by decide)
    (by decide)

/-- C10: redact_words changes only pixels inside the padding-expanded
rectangles of its boxes: a pixel outside all of the expanded rectangles
keeps its original colour, for every frame, box list and padding. -/
theorem redact_words_only_inside_boxes :
    ∀ (word_boxes : List Box) (image : Frame) (padding : Int) (p : Int × Int),
      (∀ b ∈ word_boxes, ¬ in_padded_box padding b p) →
      redact_words image word_boxes padding p = image p := by
  intro word_boxes
  induction word_boxes with
  | nil => intro image padding p _; rfl
  | cons b bs ih =>
      intro image padding p h
      have h0 : ¬ in_padded_box padding b p := h b (List.mem_cons_self b bs)
      have h1 : ∀ x ∈ bs, ¬ in_padded_box padding x p :=
        fun x hx => h x (List.mem_cons_of_mem b hx)
      calc redact_words image (b :: bs) padding p
          = redact_words
              (cv2_rectangle_filled image (b.x - padding) (b.y - padding)
                (b.x - padding + (b.w + 2 * padding))
                (b.y - padding + (b.h + 2 * padding)) white)
              bs padding p := rfl
        _ = cv2_rectangle_filled image (b.x - padding) (b.y - padding)
              (b.x - padding + (b.w + 2 * padding))
              (b.y - padding + (b.h + 2 * padding)) white p := ih _ padding p h1
        _ = image p := by
              unfold cv2_rectangle_filled
              rw [if_neg h0]

/-- Witness for redact_words_only_inside_boxes at a pixel far outside the
single box. -/
theorem redact_words_only_inside_boxes_witness :
    redact_words black_frame [Box.mk 5 5 10 10] 1 (100, 100) = black_frame (100, 100) :=
  redact_words_only_inside_boxes [Box.mk 5 5 10 10] black_frame 1 (100, 100) (by decide)

end ScreenSentry
